import Mathlib

/-!
Shallow embedding of the optimistic-mutation layer of the task-lite client
(src/app/page.tsx).  Remote calls (table reads/writes, file upload,
notification permission and dispatch) are external collaborators; their
outcomes enter each operation as explicit parameters.  Each operation is
embedded as a pure function from the component state and those outcomes to
the resulting state plus a trace of the externally visible effects (rows
sent, reloads performed, notification calls made).
-/

namespace TaskLite

/-- Embeds the `Task` row type of src/app/page.tsx (lines 6-15). -/
structure Task where
  id : String
  title : String
  done : Bool
  created_at : String
  file_url : Option String
  user_id : String
  assignee_id : Option String
  due_at : Option String
deriving DecidableEq, Repr

/-- Embeds the `Comment` row type (line 18). -/
structure Comment where
  id : String
  task_id : String
  user_id : String
  content : String
  created_at : String
deriving DecidableEq, Repr

/-- Embeds `type Filter = 'all' | 'active' | 'done' | 'assignedToMe'` (line 19). -/
inductive Filter where
  | all
  | active
  | done
  | assignedToMe
deriving DecidableEq, Repr, Fintype

/-- The React component state of `Page` that the modelled actions read and
write: session identity, the two entity caches, the form inputs, the
error banner, and the open-comments target.  Presence of a selected file
is tracked as a Bool; the file contents only matter to the external
upload call, whose outcome is an explicit parameter of `addTask`. -/
structure AppState where
  sessionUserId : Option String
  tasks : List Task
  comments : List Comment
  title : String
  assigneeId : String
  dueLocal : String
  hasFile : Bool
  commentText : String
  err : Option String
  openCommentsFor : Option Task
deriving DecidableEq, Repr

/-- Embeds `notify` (lines 44-46): the dispatch is attempted only when
permission is granted, and any exception thrown by the attempt is caught
and discarded, so the function always returns normally; the result records
the notification actually shown, if any.  There is no error channel. -/
def notify (msg : String) (granted : Bool) (dispatchThrows : Bool) : Option String :=
  if granted && !dispatchThrows then some msg else none

/-- Runs `notify` on each message a mutation passed to it, collecting the
notifications actually shown. -/
def runNotify (granted dispatchThrows : Bool) (calls : List String) : List String :=
  calls.filterMap (fun m => notify m granted dispatchThrows)

/-- Embeds the JavaScript String.prototype.trim applied to titles (line
130) and comment texts (line 194): strips leading and trailing whitespace
characters, written over the character list so that it is fully
executable. -/
def trimStr (s : String) : String :=
  String.mk (((s.data.dropWhile Char.isWhitespace).reverse.dropWhile
    Char.isWhitespace).reverse)

/-- Embeds `toISOFromLocal` (lines 50-54): the empty string yields null;
otherwise the browser Date parse decides, modelled by the oracle `parse`
(`none` when the parse yields NaN). -/
def toISOFromLocal (parse : String → Option String) (dl : String) : Option String :=
  if dl = "" then none else parse dl

/-- Embeds `loadTasks` (lines 71-78): the remote query response replaces
the task cache wholesale; on a read error the error is surfaced and the
cache is reset to empty; on success the error banner is clear (the
function nulls it before the query and only an error sets it again). -/
def loadTasks (st : AppState) (resp : Except String (List Task)) : AppState :=
  match resp with
  | .error msg => { st with err := some msg, tasks := [] }
  | .ok data => { st with err := none, tasks := data }

/-- Embeds `loadComments` (lines 97-107): same shape as `loadTasks` for the
comment cache of one task, except that the error banner is not cleared up
front, so it is left unchanged on success. -/
def loadComments (st : AppState) (resp : Except String (List Comment)) : AppState :=
  match resp with
  | .error msg => { st with err := some msg, comments := [] }
  | .ok data => { st with comments := data }

/-- Embeds `filtered` (lines 213-220): a filter of the task cache, testing
the clauses in source order; `assignedToMe` compares the assignee id with
the session user id under strict equality of nullable strings. -/
def filtered (tasks : List Task) (f : Filter) (sessionUserId : Option String) : List Task :=
  tasks.filter (fun t =>
    if f = Filter.active then !t.done
    else if f = Filter.done then t.done
    else if f = Filter.assignedToMe then decide (t.assignee_id = sessionUserId)
    else true)

/-- The row sent to the remote tasks-table insert by `addTask` (lines
162-164): title, file reference, creator, assignee, due timestamp. -/
structure InsertRow where
  title : String
  file_url : Option String
  user_id : String
  assignee_id : Option String
  due_at : Option String
deriving DecidableEq, Repr

/-- The temporary task record `addTask` builds for the optimistic prepend
(lines 149-158), from the trimmed title `t`, the upload outcome
`file_url`, the fresh client id, the client timestamp, and the form
fields. -/
def mkTempTask (freshId t now : String) (file_url : Option String) (uid : String)
    (assigneeId : String) (due_at : Option String) : Task :=
  { id := freshId, title := t, done := false, created_at := now,
    file_url := file_url, user_id := uid,
    assignee_id := if assigneeId = "" then none else some assigneeId,
    due_at := due_at }

/-- Resulting state and effect trace of one `addTask` run: the final
state, whether the storage upload was attempted, the error message the
upload catch block surfaced (if any), the task cache as it stood right
after the optimistic prepend (`none` when control returned before it),
the row sent to the remote insert (`none` when no insert was issued),
whether a full reload was performed, and the notification calls made. -/
structure AddTaskResult where
  st : AppState
  uploadAttempted : Bool
  uploadError : Option String
  optimisticTasks : Option (List Task)
  insertSent : Option InsertRow
  reloaded : Bool
  notifyCalls : List String
  notified : List String
deriving DecidableEq, Repr

/-- Embeds `addTask` (lines 127-167).  External outcomes are parameters:
`uploadResult` is the storage upload plus public-URL lookup (its `.ok`
payload is the possibly-null public URL), `freshId` and `now` are the
client-generated id and timestamp, `insertError` is the remote insert
outcome, `reload` is the query response of the reload issued on insert
failure.  Control flow follows the source: bail out on a missing session
or an empty trimmed title; attempt the upload only when a file is
selected, and on upload failure surface the message, keep the file
reference null, and continue; prepend the temporary record and clear the
form; issue the insert; on insert error surface it and reload, on
success clear the error and notify. -/
def addTask (st : AppState) (parse : String → Option String)
    (uploadResult : Except String (Option String)) (freshId now : String)
    (insertError : Option String) (reload : Except String (List Task))
    (granted dispatchThrows : Bool) : AddTaskResult :=
  match st.sessionUserId with
  | none => ⟨st, false, none, none, none, false, [], []⟩
  | some uid =>
    let t := trimStr st.title
    if t = "" then ⟨st, false, none, none, none, false, [], []⟩
    else
      let uploadAttempted := st.hasFile
      let uploadError : Option String :=
        if st.hasFile then
          match uploadResult with
          | .ok _ => none
          | .error msg => some msg
        else none
      let file_url : Option String :=
        if st.hasFile then
          match uploadResult with
          | .ok pub => pub
          | .error _ => none
        else none
      let st1 : AppState :=
        match uploadError with
        | some msg => { st with err := some msg }
        | none => st
      let due_at := toISOFromLocal parse st.dueLocal
      let temp := mkTempTask freshId t now file_url uid st.assigneeId due_at
      let st2 :=
        { st1 with
          tasks := temp :: st1.tasks,
          title := "", assigneeId := "", hasFile := false, dueLocal := "" }
      let row : InsertRow :=
        { title := t, file_url := file_url, user_id := uid,
          assignee_id := if st.assigneeId = "" then none else some st.assigneeId,
          due_at := due_at }
      match insertError with
      | some msg =>
        ⟨loadTasks { st2 with err := some msg } reload,
          uploadAttempted, uploadError, some st2.tasks, some row, true, [], []⟩
      | none =>
        ⟨{ st2 with err := none }, uploadAttempted, uploadError, some st2.tasks,
          some row, false, ["Task added"],
          runNotify granted dispatchThrows ["Task added"]⟩

/-- Resulting state and effect trace of `toggleDone`, `remove` or
`clearCompleted`: final state, identifiers sent to the remote call
(`none` when no remote call was issued), notification calls made and
notifications shown. -/
structure MutationResult where
  st : AppState
  remoteIds : Option (List String)
  notifyCalls : List String
  notified : List String
deriving DecidableEq, Repr

/-- The optimistic step of `toggleDone` (line 172): map over the cache,
replacing the completion flag of every entry whose id matches. -/
def toggleOptimistic (tasks : List Task) (task : Task) : List Task :=
  tasks.map (fun x => if x.id = task.id then { x with done := !task.done } else x)

/-- Embeds `toggleDone` (lines 169-175): snapshot the cache, apply the
optimistic flag flip, issue the remote update (outcome `updateError`); on
failure surface the error and restore the snapshot, on success clear the
error and notify. -/
def toggleDone (st : AppState) (task : Task) (updateError : Option String)
    (granted dispatchThrows : Bool) : MutationResult :=
  let next := !task.done
  let prev := st.tasks
  match updateError with
  | some msg => ⟨{ st with tasks := prev, err := some msg }, some [task.id], [], []⟩
  | none =>
    let calls := [if next then "Task completed" else "Task re-opened"]
    ⟨{ st with tasks := toggleOptimistic prev task, err := none }, some [task.id],
      calls, runNotify granted dispatchThrows calls⟩

/-- Embeds `remove` (lines 176-181): snapshot, optimistic removal of the
matching id, remote delete; on failure surface the error and restore the
snapshot, on success clear the error and notify. -/
def remove (st : AppState) (task : Task) (deleteError : Option String)
    (granted dispatchThrows : Bool) : MutationResult :=
  let prev := st.tasks
  match deleteError with
  | some msg => ⟨{ st with tasks := prev, err := some msg }, some [task.id], [], []⟩
  | none =>
    let calls := ["Task deleted"]
    ⟨{ st with tasks := prev.filter (fun x => decide (x.id ≠ task.id)), err := none },
      some [task.id], calls, runNotify granted dispatchThrows calls⟩

/-- Embeds `clearCompleted` (lines 182-189): collect the ids of completed
tasks; when none, return with no remote call; otherwise snapshot,
optimistically drop every completed task, issue one batch delete keyed by
the collected ids; on failure surface the error and restore the snapshot.
The success branch neither clears the error banner nor notifies. -/
def clearCompleted (st : AppState) (deleteError : Option String)
    (granted dispatchThrows : Bool) : MutationResult :=
  let _ := granted
  let _ := dispatchThrows
  let doneIds := (st.tasks.filter (fun t => t.done)).map (fun t => t.id)
  if doneIds.isEmpty then ⟨st, none, [], []⟩
  else
    let prev := st.tasks
    match deleteError with
    | some msg => ⟨{ st with tasks := prev, err := some msg }, some doneIds, [], []⟩
    | none => ⟨{ st with tasks := prev.filter (fun t => !t.done) }, some doneIds, [], []⟩

/-- The row sent to the remote comments-table insert by `addComment`
(lines 207-209). -/
structure CommentRow where
  task_id : String
  user_id : String
  content : String
deriving DecidableEq, Repr

/-- Resulting state and effect trace of one `addComment` run. -/
structure AddCommentResult where
  st : AppState
  insertSent : Option CommentRow
  reloaded : Bool
  notifyCalls : List String
deriving DecidableEq, Repr

/-- Embeds `addComment` (lines 191-211): bail out when no comments drawer
is open, no session exists, or the trimmed text is empty; prepend a
temporary comment and clear the input; issue the remote insert; on
failure surface the error and reload that task comments; the success
branch does nothing further (no notification, error banner untouched). -/
def addComment (st : AppState) (freshId now : String) (insertError : Option String)
    (reload : Except String (List Comment)) : AddCommentResult :=
  match st.openCommentsFor, st.sessionUserId with
  | some task, some uid =>
    let content := trimStr st.commentText
    if content = "" then ⟨st, none, false, []⟩
    else
      let tmp : Comment :=
        { id := freshId, task_id := task.id, user_id := uid,
          content := content, created_at := now }
      let st1 := { st with comments := tmp :: st.comments, commentText := "" }
      let row : CommentRow := { task_id := task.id, user_id := uid, content := content }
      match insertError with
      | some msg => ⟨loadComments { st1 with err := some msg } reload, some row, true, []⟩
      | none => ⟨st1, some row, false, []⟩
  | _, _ => ⟨st, none, false, []⟩

/-- Descending creation-timestamp order between two tasks, the order the
remote query `order by created_at descending` establishes (line 74);
ISO-8601 strings compare lexicographically consistently with time. -/
def createdDesc (a b : Task) : Prop := b.created_at ≤ a.created_at

instance : DecidableRel createdDesc := fun a b => by
  unfold createdDesc; infer_instance

/-! Concrete sample data used by scenario conjuncts, counterexamples and
witnesses. -/

/-- Scenario task T1 of property P5: not done, assigned to U1. -/
def taskT1 : Task :=
  { id := "T1", title := "write report", done := false,
    created_at := "2024-03-03T10:00:00Z", file_url := none,
    user_id := "U9", assignee_id := some "U1", due_at := none }

/-- Scenario task T2 of property P5: done, assigned to U2. -/
def taskT2 : Task :=
  { id := "T2", title := "review budget", done := true,
    created_at := "2024-03-02T10:00:00Z", file_url := none,
    user_id := "U9", assignee_id := some "U2", due_at := none }

/-- Scenario task T3 of property P5: not done, unassigned, created by U1. -/
def taskT3 : Task :=
  { id := "T3", title := "plan offsite", done := false,
    created_at := "2024-03-01T10:00:00Z", file_url := none,
    user_id := "U1", assignee_id := none, due_at := none }

/-!  Theorems settling the claims. -/

/-- C2: for the done-toggle update, the single delete and the bulk delete
of completed tasks, when the remote call fails the task cache after
reconciliation equals — same entities, same field values, same order —
the cache immediately before the optimistic mutation was applied. -/
theorem rollback_exactness (st : AppState) (task : Task) (msg : String) (g d : Bool) :
    (toggleDone st task (some msg) g d).st.tasks = st.tasks ∧
    (remove st task (some msg) g d).st.tasks = st.tasks ∧
    (clearCompleted st (some msg) g d).st.tasks = st.tasks := by
  refine ⟨rfl, rfl, ?_⟩
  by_cases h : ((st.tasks.filter (fun t => t.done)).map (fun t => t.id)).isEmpty <;>
    simp [clearCompleted, h]

/-- C9: the view projection is a deterministic function of the cache, the
filter value and the current user identity — projecting twice yields
identical ordered results — and it never mutates the cache it reads: its
output is a sublist of the unchanged input cache. -/
theorem filter_purity (tasks : List Task) (f : Filter) (uid : Option String) :
    filtered tasks f uid = filtered tasks f uid ∧
    List.Sublist (filtered tasks f uid) tasks :=
  ⟨rfl, List.filter_sublist tasks⟩

/-- C3 counterexample: the filter selection enumeration has four values,
not the five the claim states (there is no assigned-by-current-user
filter). -/
theorem filter_enum_not_five : ¬ (Fintype.card Filter = 5) := by decide

/-- C3 (amended): the filter selection is drawn from a closed enumeration
of exactly four values — all, active, done, assignedToMe; no
assigned-by-current-user filter exists in the enumeration. -/
theorem filter_enum_four :
    Fintype.card Filter = 4 ∧
    ∀ f : Filter, f = Filter.all ∨ f = Filter.active ∨ f = Filter.done ∨
      f = Filter.assignedToMe := by
  refine ⟨by decide, fun f => ?_⟩
  cases f <;> simp

/-- C7: the view projection selects under active exactly the tasks whose
completion flag is false, under done exactly those with the flag true,
under assignedToMe exactly those whose assignee id equals the current
user identity, and under all every task, in each case by an
order-preserving filter of the cache; the P5 scenario with current user
U1 yields T1 and T3, then T2, then T1, then all three in cache order. -/
theorem filter_semantics (tasks : List Task) (uid : Option String) :
    filtered tasks Filter.active uid = tasks.filter (fun t => !t.done) ∧
    filtered tasks Filter.done uid = tasks.filter (fun t => t.done) ∧
    filtered tasks Filter.assignedToMe uid =
      tasks.filter (fun t => decide (t.assignee_id = uid)) ∧
    filtered tasks Filter.all uid = tasks ∧
    filtered [taskT1, taskT2, taskT3] Filter.active (some "U1") = [taskT1, taskT3] ∧
    filtered [taskT1, taskT2, taskT3] Filter.done (some "U1") = [taskT2] ∧
    filtered [taskT1, taskT2, taskT3] Filter.assignedToMe (some "U1") = [taskT1] ∧
    filtered [taskT1, taskT2, taskT3] Filter.all (some "U1") =
      [taskT1, taskT2, taskT3] := by
  refine ⟨by simp [filtered], by simp [filtered], by simp [filtered], ?_,
    by decide, by decide, by decide, by decide⟩
  simp [filtered]

/-- C10: the optimistic step of the done-toggle preserves the length and
the position of every entry: an entry whose id differs from the toggled
task is unchanged, and an entry whose id matches is replaced by the same
record with only the completion flag flipped (all other fields kept by
the record update). -/
theorem toggle_frame (tasks : List Task) (task : Task) (i : Nat) (old : Task)
    (h : tasks[i]? = some old) :
    (toggleOptimistic tasks task).length = tasks.length ∧
    (old.id ≠ task.id → (toggleOptimistic tasks task)[i]? = some old) ∧
    (old.id = task.id →
      (toggleOptimistic tasks task)[i]? = some { old with done := !task.done }) := by
  refine ⟨List.length_map _ _, ?_, ?_⟩
  · intro hne
    simp [toggleOptimistic, List.getElem?_map, h, hne]
  · intro heq
    simp [toggleOptimistic, List.getElem?_map, h, heq]

/-- Witness for C10 at a concrete two-element cache: toggling taskT1
rewrites position 0 to taskT1 with the flag flipped and leaves taskT2 at
position 1 untouched. -/
theorem toggle_frame_witness :
    ([taskT1, taskT2] : List Task)[0]? = some taskT1 ∧
    (toggleOptimistic [taskT1, taskT2] taskT1)[0]? =
      some { taskT1 with done := !taskT1.done } := by
  have h : ([taskT1, taskT2] : List Task)[0]? = some taskT1 := by decide
  exact ⟨h, (toggle_frame [taskT1, taskT2] taskT1 0 taskT1 h).2.2 rfl⟩

/-- C6: a title that trims to the empty string makes addTask a silent
no-op — state unchanged, no upload attempted, no row sent, no reload, no
notification — and a comment text that trims to the empty string makes
addComment a silent no-op likewise. -/
theorem empty_input_noop (st : AppState) (parse : String → Option String)
    (upload : Except String (Option String)) (freshId now : String)
    (e : Option String) (reloadT : Except String (List Task))
    (reloadC : Except String (List Comment)) (g d : Bool) :
    (trimStr st.title = "" →
      addTask st parse upload freshId now e reloadT g d =
        ⟨st, false, none, none, none, false, [], []⟩) ∧
    (trimStr st.commentText = "" →
      addComment st freshId now e reloadC = ⟨st, none, false, []⟩) := by
  constructor
  · intro ht
    cases hu : st.sessionUserId <;> simp [addTask, hu, ht]
  · intro hc
    cases ho : st.openCommentsFor <;> cases hu : st.sessionUserId <;>
      simp [addComment, ho, hu, hc]

/-- State with whitespace-only title and comment text used to witness C6. -/
def stBlank : AppState :=
  { sessionUserId := some "U1", tasks := [taskT1], comments := [],
    title := "   ", assigneeId := "", dueLocal := "", hasFile := false,
    commentText := "  ", err := none, openCommentsFor := some taskT1 }

/-- Witness for C6: submitting the whitespace-only title and the
whitespace-only comment text of stBlank changes nothing and issues no
remote call. -/
theorem empty_input_noop_witness :
    trimStr stBlank.title = "" ∧ trimStr stBlank.commentText = "" ∧
    addTask stBlank (fun _ => none) (Except.ok none) "f1" "2024-01-01T00:00:00Z"
        none (Except.ok []) true false =
      ⟨stBlank, false, none, none, none, false, [], []⟩ ∧
    addComment stBlank "f1" "2024-01-01T00:00:00Z" none (Except.ok []) =
      ⟨stBlank, none, false, []⟩ := by
  have h := empty_input_noop stBlank (fun _ => none) (Except.ok none) "f1"
    "2024-01-01T00:00:00Z" none (Except.ok []) (Except.ok []) true false
  exact ⟨by decide, by decide, h.1 (by decide), h.2 (by decide)⟩

/-- C5: when the remote row insert fails after the optimistic prepend,
addTask reconciles by a full reload of the task collection, and — given
that the reload payload never contains the client-generated temporary id,
as a fresh client id never collides with a server-assigned one — no
entity with that id remains in the cache afterwards (on a failed reload
the cache is reset to empty, so none remains either). -/
theorem insert_resync (st : AppState) (uid : String) (parse : String → Option String)
    (upload : Except String (Option String)) (freshId now msg : String)
    (reload : Except String (List Task)) (g d : Bool)
    (hu : st.sessionUserId = some uid) (ht : trimStr st.title ≠ "")
    (hfresh : ∀ l, reload = Except.ok l → ∀ t ∈ l, t.id ≠ freshId) :
    (addTask st parse upload freshId now (some msg) reload g d).reloaded = true ∧
    ∀ t ∈ (addTask st parse upload freshId now (some msg) reload g d).st.tasks,
      t.id ≠ freshId := by
  cases reload with
  | error m =>
    exact ⟨by simp [addTask, hu, ht], by simp [addTask, hu, ht, loadTasks]⟩
  | ok l =>
    refine ⟨by simp [addTask, hu, ht], ?_⟩
    have h := hfresh l rfl
    simpa [addTask, hu, ht, loadTasks] using h

/-- State with a session, a nonempty title and no selected file, used to
witness claims about the addTask paths. -/
def stInsert : AppState :=
  { sessionUserId := some "U1", tasks := [taskT2], comments := [],
    title := "Buy milk", assigneeId := "", dueLocal := "", hasFile := false,
    commentText := "", err := none, openCommentsFor := none }

/-- Witness for C5: a failed insert of a task titled Buy milk reloads, and
the reloaded cache (one server row) holds no entity with the temporary
id. -/
theorem insert_resync_witness :
    stInsert.sessionUserId = some "U1" ∧ trimStr stInsert.title ≠ "" ∧
    (addTask stInsert (fun _ => none) (Except.ok none) "tmp-1"
        "2024-04-01T00:00:00Z" (some "insert failed") (Except.ok [taskT1])
        true false).reloaded = true ∧
    ∀ t ∈ (addTask stInsert (fun _ => none) (Except.ok none) "tmp-1"
        "2024-04-01T00:00:00Z" (some "insert failed") (Except.ok [taskT1])
        true false).st.tasks, t.id ≠ "tmp-1" := by
  have h := insert_resync stInsert "U1" (fun _ => none) (Except.ok none) "tmp-1"
    "2024-04-01T00:00:00Z" "insert failed" (Except.ok [taskT1]) true false
    (by decide) (by decide)
    (fun l hl => by injection hl with h3; subst h3; decide)
  exact ⟨by decide, by decide, h.1, h.2⟩

/-- C8: a full reload installs the remote query response wholesale, so
when the gateway returns rows in descending creation-timestamp order (the
order the issued query requests) the cache is in that order; and the
optimistic step of addTask places the freshly built temporary record —
carrying the fresh client id and the client timestamp — at the head of
the otherwise unchanged previous cache. -/
theorem cache_ordering (st : AppState) (data : List Task) (uid : String)
    (parse : String → Option String) (upload : Except String (Option String))
    (freshId now : String) (e : Option String) (reload : Except String (List Task))
    (g d : Bool) (hs : List.Sorted createdDesc data)
    (hu : st.sessionUserId = some uid) (ht : trimStr st.title ≠ "") :
    (loadTasks st (Except.ok data)).tasks = data ∧
    List.Sorted createdDesc (loadTasks st (Except.ok data)).tasks ∧
    ∃ temp : Task,
      (addTask st parse upload freshId now e reload g d).optimisticTasks =
        some (temp :: st.tasks) ∧ temp.id = freshId ∧ temp.created_at = now := by
  refine ⟨rfl, by simpa [loadTasks] using hs, ?_⟩
  refine ⟨mkTempTask freshId (trimStr st.title) now
    (if st.hasFile then
      match upload with
      | .ok pub => pub
      | .error _ => none
     else none) uid st.assigneeId (toISOFromLocal parse st.dueLocal), ?_, rfl, rfl⟩
  by_cases hf : st.hasFile <;> cases upload <;> cases e <;>
    simp [addTask, hu, ht, hf]

/-- Witness for C8: loading the descending-ordered pair taskT1, taskT2
installs it sorted, and an optimistic insert into stInsert prepends a
temporary record with the fresh id and client timestamp. -/
theorem cache_ordering_witness :
    List.Sorted createdDesc [taskT1, taskT2] ∧
    stInsert.sessionUserId = some "U1" ∧ trimStr stInsert.title ≠ "" ∧
    ((loadTasks stInsert (Except.ok [taskT1, taskT2])).tasks = [taskT1, taskT2] ∧
     List.Sorted createdDesc (loadTasks stInsert (Except.ok [taskT1, taskT2])).tasks ∧
     ∃ temp : Task,
       (addTask stInsert (fun _ => none) (Except.ok none) "tmp-2"
           "2024-04-02T00:00:00Z" none (Except.ok []) true false).optimisticTasks =
         some (temp :: stInsert.tasks) ∧ temp.id = "tmp-2" ∧
         temp.created_at = "2024-04-02T00:00:00Z") := by
  have hs : List.Sorted createdDesc [taskT1, taskT2] := by
    simp [List.sorted_cons, createdDesc, taskT1, taskT2]
    decide
  exact ⟨hs, by decide, by decide,
    cache_ordering stInsert [taskT1, taskT2] "U1" (fun _ => none) (Except.ok none)
      "tmp-2" "2024-04-02T00:00:00Z" none (Except.ok []) true false hs
      (by decide) (by decide)⟩

/-- State with a session, a nonempty title and a selected file, used by
the upload-failure claims. -/
def stUpload : AppState :=
  { sessionUserId := some "U1", tasks := [taskT2], comments := [],
    title := "Ship build", assigneeId := "", dueLocal := "", hasFile := true,
    commentText := "", err := none, openCommentsFor := none }

/-- C1 counterexample: at this concrete input the selected file fails to
upload, yet addTask does not abort — the task cache is mutated by the
optimistic prepend and the remote row insert is still issued. -/
theorem upload_failure_no_abort :
    (addTask stUpload (fun _ => none) (Except.error "upload failed") "tmp-3"
        "2024-04-03T00:00:00Z" none (Except.ok []) true false).uploadError =
      some "upload failed" ∧
    (addTask stUpload (fun _ => none) (Except.error "upload failed") "tmp-3"
        "2024-04-03T00:00:00Z" none (Except.ok []) true false).st.tasks ≠
      stUpload.tasks ∧
    (addTask stUpload (fun _ => none) (Except.error "upload failed") "tmp-3"
        "2024-04-03T00:00:00Z" none (Except.ok []) true false).insertSent.isSome =
      true := by decide

/-- C1 (amended): when the attachment upload fails, the upload error is
surfaced at the catch site, but the insert is not aborted: the optimistic
prepend still occurs, with a null file reference on the temporary record,
and the remote row insert is still issued, also with a null file
reference. -/
theorem upload_failure_continues (st : AppState) (uid : String)
    (parse : String → Option String) (msg freshId now : String)
    (e : Option String) (reload : Except String (List Task)) (g d : Bool)
    (hu : st.sessionUserId = some uid) (ht : trimStr st.title ≠ "")
    (hf : st.hasFile = true) :
    (addTask st parse (Except.error msg) freshId now e reload g d).uploadError =
      some msg ∧
    (addTask st parse (Except.error msg) freshId now e reload g d).optimisticTasks =
      some (mkTempTask freshId (trimStr st.title) now none uid st.assigneeId
        (toISOFromLocal parse st.dueLocal) :: st.tasks) ∧
    (addTask st parse (Except.error msg) freshId now e reload g d).insertSent =
      some { title := trimStr st.title, file_url := none, user_id := uid,
             assignee_id := if st.assigneeId = "" then none else some st.assigneeId,
             due_at := toISOFromLocal parse st.dueLocal } := by
  cases e <;> simp [addTask, hu, ht, hf]

/-- Witness for C1 (amended) at stUpload: the upload error is surfaced
while the prepend and the row insert still happen. -/
theorem upload_failure_continues_witness :
    stUpload.sessionUserId = some "U1" ∧ trimStr stUpload.title ≠ "" ∧
    stUpload.hasFile = true ∧
    (addTask stUpload (fun _ => none) (Except.error "upload failed") "tmp-5"
        "2024-04-06T00:00:00Z" none (Except.ok []) true false).uploadError =
      some "upload failed" := by
  have h := upload_failure_continues stUpload "U1" (fun _ => none) "upload failed"
    "tmp-5" "2024-04-06T00:00:00Z" none (Except.ok []) true false
    (by decide) (by decide) (by decide)
  exact ⟨by decide, by decide, by decide, h.1⟩

/-- State with one completed task, an open comments drawer and a nonempty
comment text, used by the notification counterexample. -/
def stBulk : AppState :=
  { sessionUserId := some "U1", tasks := [taskT2, taskT3], comments := [],
    title := "", assigneeId := "", dueLocal := "", hasFile := false,
    commentText := "note", err := none, openCommentsFor := some taskT3 }

/-- C4 counterexample: at this concrete input a bulk delete of completed
tasks and a comment insert both complete without remote error — the batch
delete keyed by the completed id and the comment row insert are issued —
yet neither makes any notification call, even with permission granted and
a dispatch that would succeed. -/
theorem bulk_and_comment_no_notify :
    (clearCompleted stBulk none true false).remoteIds = some ["T2"] ∧
    (clearCompleted stBulk none true false).notifyCalls = [] ∧
    (addComment stBulk "c1" "2024-04-04T00:00:00Z" none
        (Except.ok [])).insertSent.isSome = true ∧
    (addComment stBulk "c1" "2024-04-04T00:00:00Z" none
        (Except.ok [])).notifyCalls = [] := by decide

/-- C4 (amended): a task insert, a done-toggle and a single delete that
complete without remote error each make exactly one notification call,
while the bulk delete of completed tasks and the comment insert never
make one; a notification is shown only when permission is granted, a
throwing dispatch is swallowed with nothing shown and no error channel,
and no mutation outcome depends on the permission state or on dispatch
failure. -/
theorem notify_policy (st : AppState) (task : Task) (uid : String)
    (parse : String → Option String) (upload : Except String (Option String))
    (freshId now msg : String) (e : Option String)
    (reloadT : Except String (List Task)) (reloadC : Except String (List Comment))
    (g d g2 d2 : Bool) :
    (toggleDone st task none g d).notifyCalls =
      [if !task.done then "Task completed" else "Task re-opened"] ∧
    (remove st task none g d).notifyCalls = ["Task deleted"] ∧
    (st.sessionUserId = some uid → trimStr st.title ≠ "" →
      (addTask st parse upload freshId now none reloadT g d).notifyCalls =
        ["Task added"]) ∧
    (clearCompleted st e g d).notifyCalls = [] ∧
    (addComment st freshId now e reloadC).notifyCalls = [] ∧
    notify msg g true = none ∧
    (toggleDone st task e g d).st = (toggleDone st task e g2 d2).st ∧
    (remove st task e g d).st = (remove st task e g2 d2).st ∧
    (clearCompleted st e g d).st = (clearCompleted st e g2 d2).st ∧
    (addTask st parse upload freshId now e reloadT g d).st =
      (addTask st parse upload freshId now e reloadT g2 d2).st := by
  refine ⟨rfl, rfl, ?_, ?_, ?_, by simp [notify], ?_, ?_, ?_, ?_⟩
  · intro hu ht
    by_cases hf : st.hasFile <;> cases upload <;> simp [addTask, hu, ht, hf]
  · by_cases h : ((st.tasks.filter (fun t => t.done)).map (fun t => t.id)).isEmpty <;>
      cases e <;> simp [clearCompleted, h]
  · cases ho : st.openCommentsFor <;> cases hu2 : st.sessionUserId <;>
      cases e <;> by_cases hc : trimStr st.commentText = "" <;>
      simp [addComment, ho, hu2, hc]
  · cases e <;> rfl
  · cases e <;> rfl
  · cases e <;> rfl
  · cases hu2 : st.sessionUserId <;> by_cases ht2 : trimStr st.title = "" <;>
      cases e <;> by_cases hf2 : st.hasFile <;> cases upload <;>
      simp [addTask, hu2, ht2, hf2]

/-- Witness for C4 (amended): with a session and the nonempty title of
stInsert, a successful task insert makes exactly the Task-added
notification call, and a successful bulk clear makes none. -/
theorem notify_policy_witness :
    stInsert.sessionUserId = some "U1" ∧ trimStr stInsert.title ≠ "" ∧
    (addTask stInsert (fun _ => none) (Except.ok none) "tmp-4"
        "2024-04-05T00:00:00Z" none (Except.ok []) true false).notifyCalls =
      ["Task added"] ∧
    (clearCompleted stInsert none true false).notifyCalls = [] := by
  have h := notify_policy stInsert taskT1 "U1" (fun _ => none) (Except.ok none)
    "tmp-4" "2024-04-05T00:00:00Z" "m" none (Except.ok []) (Except.ok [])
    true false false true
  exact ⟨by decide, by decide, h.2.2.1 (by decide) (by decide), h.2.2.2.1⟩

end TaskLite
